import Mathlib

/-!
Shallow embedding of the task-tracking API (Django CRUD service in
src/akk_django and FastAPI read proxy in src/akk_fasapi).

The data model follows tasks/models.py; the view-level logic follows
tasks/views.py (get_queryset, perform_create, perform_update and the
IsOwnerOrReadOnly permission); serializer save semantics (keyword
overrides, patch application, write-only fields) follow
tasks/serializers.py.  Framework-declarative field validation is an
external collaborator per the spec and is not modelled; payloads are the
raw request data the view methods read.  Machine persistence is a pure
store value threaded through each operation; a failing operation returns
an error and hence persists nothing.
-/

namespace Tasks

/-- A user record (Django auth User): id, username, email, password hash
and the staff flag. -/
structure User where
  id : Nat
  username : String
  email : String
  passwordHash : String
  isStaff : Bool
deriving Repr, DecidableEq

/-- A label (tasks/models.py Label): name of at most 100 chars and an
owner, referenced by user id. -/
structure Label where
  id : Nat
  name : String
  owner : Nat
deriving Repr, DecidableEq

/-- Completion status enum of Task (STATUS_CHOICE in models.py). -/
inductive Status where
  | TODO
  | IN_PROGRESS
  | DONE
deriving Repr, DecidableEq

/-- A task (tasks/models.py Task): title, optional description, status,
owner by user id, and the many-to-many label association kept as the
list of associated label ids. -/
structure Task where
  id : Nat
  title : String
  description : Option String
  completion_status : Status
  owner : Nat
  labels : List Nat
deriving Repr, DecidableEq

/-- The entity store: the three relational tables. -/
structure Store where
  users : List User
  labels : List Label
  tasks : List Task
deriving Repr, DecidableEq

/-- Store well-formedness: primary keys are unique per table. -/
def StoreWF (s : Store) : Prop :=
  (s.labels.map Label.id).Nodup ∧ (s.tasks.map Task.id).Nodup

instance (s : Store) : Decidable (StoreWF s) := by
  unfold StoreWF; infer_instance

/-- Equality of operation outcomes is decidable, so concrete runs can
be checked by evaluation. -/
instance {ε α : Type} [DecidableEq ε] [DecidableEq α] :
    DecidableEq (Except ε α) := fun a b =>
  match a, b with
  | .error e₁, .error e₂ =>
      if h : e₁ = e₂ then .isTrue (by rw [h]) else .isFalse (by simp [h])
  | .error _, .ok _ => .isFalse (by simp)
  | .ok _, .error _ => .isFalse (by simp)
  | .ok v₁, .ok v₂ =>
      if h : v₁ = v₂ then .isTrue (by rw [h]) else .isFalse (by simp [h])

/-- HTTP method of a request, as seen by the permission class. -/
inductive Method where
  | GET
  | HEAD
  | OPTIONS
  | POST
  | PUT
  | PATCH
  | DELETE
deriving Repr, DecidableEq

/-- rest_framework permissions.SAFE_METHODS. -/
def SAFE_METHODS : List Method := [.GET, .HEAD, .OPTIONS]

/-- IsOwnerOrReadOnly.has_object_permission (views.py lines 15-24):
safe methods are always allowed; write methods only when the object
owner is the requesting user.  The object owner is passed as its user
id. -/
def IsOwnerOrReadOnly.has_object_permission
    (method : Method) (user : User) (objOwner : Nat) : Bool :=
  if method ∈ SAFE_METHODS then true
  else objOwner == user.id

/-- TaskViewSet.get_queryset (views.py lines 41-49): staff sees all
tasks, others only their own. -/
def TaskViewSet.get_queryset (s : Store) (u : User) : List Task :=
  if u.isStaff then s.tasks
  else s.tasks.filter (fun t => t.owner == u.id)

/-- LabelViewSet.get_queryset (views.py lines 128-136): staff sees all
labels, others only their own. -/
def LabelViewSet.get_queryset (s : Store) (u : User) : List Label :=
  if u.isStaff then s.labels
  else s.labels.filter (fun l => l.owner == u.id)

/-- Errors raised by the view layer, plus the database integrity error
raised by the unique_together constraint of models.py at save time. -/
inductive ApiError where
  | validationError (field : String) (msg : String)
  | permissionDenied (msg : String)
  | integrityError
deriving Repr, DecidableEq

/-- The value found under label_ids in the raw request data: either a
JSON list of ids, or some non-list value (isinstance check in the
views). -/
inductive LabelIdsField where
  | list (ids : List Nat)
  | nonList
deriving Repr, DecidableEq

/-- Raw request payload for task create and update.  A field set to none
is absent from the request body; owner_id models the write-only
serializer field of the same name. -/
structure TaskPayload where
  title : Option String := none
  description : Option String := none
  completion_status : Option Status := none
  owner_id : Option Nat := none
  label_ids : Option LabelIdsField := none
deriving Repr, DecidableEq

/-- request.data.get with empty-list default followed by the isinstance
coercion of perform_create (views.py lines 59-62). -/
def coerceLabelIds : Option LabelIdsField → List Nat
  | some (.list ids) => ids
  | some .nonList => []
  | none => []

/-- Label.objects.filter with id in ids and owner equal to the user
(views.py lines 65 and 98). -/
def valid_labels (s : Store) (u : User) (ids : List Nat) : List Label :=
  s.labels.filter (fun l => ids.contains l.id && l.owner == u.id)

/-- TaskViewSet.perform_create (views.py lines 52-74): coerce the raw
label_ids, match them against the caller-owned labels, fail with a
field-scoped ValidationError on a count mismatch, otherwise persist the
task with owner forced to the caller and the validated label set.  The
write-only owner_id of the payload is overridden by the owner keyword
passed to serializer.save. -/
def TaskViewSet.perform_create (s : Store) (u : User) (p : TaskPayload)
    (newId : Nat) : Except ApiError Store :=
  let labels_ids := coerceLabelIds p.label_ids
  let valid := valid_labels s u labels_ids
  if valid.length ≠ labels_ids.length then
    .error (.validationError "label_ids"
      "One or more labels not found or do not belong to the authenticated user.")
  else
    .ok { s with tasks := s.tasks ++ [{
      id := newId
      title := p.title.getD ""
      description := p.description
      completion_status := p.completion_status.getD .TODO
      owner := u.id
      labels := valid.map Label.id }] }

/-- serializer.save() on an existing task instance: each field present in
the validated data patches the instance; owner_id writes through to
owner; the label association is handled separately by perform_update. -/
def applyTaskPatch (t : Task) (p : TaskPayload) : Task :=
  { t with
    title := p.title.getD t.title
    description := match p.description with
      | some d => some d
      | none => t.description
    completion_status := p.completion_status.getD t.completion_status
    owner := p.owner_id.getD t.owner }

/-- Replace the stored task carrying the same id. -/
def Store.saveTask (s : Store) (t : Task) : Store :=
  { s with tasks := s.tasks.map (fun x => if x.id == t.id then t else x) }

/-- TaskViewSet.perform_update (views.py lines 77-110): guard against an
owner change attempt by a non-owner non-staff caller whenever the
owner_id key is present in the raw data; then, when label_ids is present
it must be a list, is validated against caller-owned labels, and on
success replaces the association wholesale; when absent the association
is left untouched. -/
def TaskViewSet.perform_update (s : Store) (u : User) (t : Task)
    (p : TaskPayload) : Except ApiError Store :=
  if p.owner_id.isSome && !(t.owner == u.id) && !u.isStaff then
    .error (.permissionDenied
      "You do not have permission to change the owner of this task.")
  else
    match p.label_ids with
    | none => .ok (s.saveTask (applyTaskPatch t p))
    | some .nonList =>
        .error (.validationError "label_ids"
          "The format for label_ids must be a list.")
    | some (.list labels_ids) =>
        let valid := valid_labels s u labels_ids
        if valid.length ≠ labels_ids.length then
          .error (.validationError "label_ids"
            "One or more labels not found or do not belong to the authenticated user.")
        else
          .ok (s.saveTask { applyTaskPatch t p with labels := valid.map Label.id })

/-- Raw request payload for label create and update.  The serializer
requires name at create; at partial update it may be absent. -/
structure LabelPayload where
  name : Option String := none
  owner_id : Option Nat := none
deriving Repr, DecidableEq

/-- serializer.save() on an existing label instance: fields present in
the validated data patch the instance. -/
def applyLabelPatch (l : Label) (p : LabelPayload) : Label :=
  { l with name := p.name.getD l.name, owner := p.owner_id.getD l.owner }

/-- Insert of a label row.  The unique_together (name, owner) constraint
of models.py (Label.Meta) is enforced by the database at save time: a
violating insert raises an integrity error and writes nothing. -/
def Store.insertLabel (s : Store) (l : Label) : Except ApiError Store :=
  if s.labels.any (fun x => x.name == l.name && x.owner == l.owner) then
    .error .integrityError
  else
    .ok { s with labels := s.labels ++ [l] }

/-- Update of a label row, replacing the row with the same id.  The
unique_together (name, owner) constraint of models.py is again the
database backstop: a violating save raises an integrity error and
writes nothing. -/
def Store.saveLabel (s : Store) (l : Label) : Except ApiError Store :=
  if s.labels.any (fun x => !(x.id == l.id) && x.name == l.name && x.owner == l.owner) then
    .error .integrityError
  else
    .ok { s with labels := s.labels.map (fun x => if x.id == l.id then l else x) }

/-- LabelViewSet.perform_create (views.py lines 138-147): reject a name
the caller already uses with a field-scoped ValidationError, else save
with owner forced to the caller.  The serializer guarantees name is
present when this runs. -/
def LabelViewSet.perform_create (s : Store) (u : User) (p : LabelPayload)
    (newId : Nat) : Except ApiError Store :=
  let name := p.name.getD ""
  if s.labels.any (fun l => l.name == name && l.owner == u.id) then
    .error (.validationError "name"
      "A label with this name already exists for this user.")
  else
    s.insertLabel { id := newId, name := name, owner := u.id }

/-- LabelViewSet.perform_update (views.py lines 150-165): guard against
an owner change attempt by a non-owner non-staff caller whenever the
owner_id key is present; when a non-empty name different from the
current one is supplied, re-check uniqueness for the caller excluding
the instance itself; then save the patched instance. -/
def LabelViewSet.perform_update (s : Store) (u : User) (inst : Label)
    (p : LabelPayload) : Except ApiError Store :=
  if p.owner_id.isSome && !(inst.owner == u.id) && !u.isStaff then
    .error (.permissionDenied
      "You do not have permission to change the owner of this label.")
  else
    match p.name with
    | some name =>
        if name ≠ "" ∧ name ≠ inst.name then
          if s.labels.any (fun l =>
              l.name == name && l.owner == u.id && !(l.id == inst.id)) then
            .error (.validationError "name"
              "A label with this name already exists for this user.")
          else
            s.saveLabel (applyLabelPatch inst p)
        else
          s.saveLabel (applyLabelPatch inst p)
    | none => s.saveLabel (applyLabelPatch inst p)

/-- Default ModelViewSet destroy on a label: delete the row. -/
def LabelViewSet.perform_destroy (s : Store) (inst : Label) : Store :=
  { s with labels := s.labels.filter (fun x => !(x.id == inst.id)) }

/-- One transition of the label table through the label endpoints: a
create with a database-assigned fresh id, an update of a stored label,
or a delete. -/
inductive LabelStep : Store → Store → Prop where
  | create {s : Store} (u : User) (p : LabelPayload) (newId : Nat) {s' : Store}
      (hfresh : ∀ l ∈ s.labels, l.id ≠ newId)
      (h : LabelViewSet.perform_create s u p newId = .ok s') : LabelStep s s'
  | update {s : Store} (u : User) (inst : Label) (p : LabelPayload) {s' : Store}
      (hinst : inst ∈ s.labels)
      (h : LabelViewSet.perform_update s u inst p = .ok s') : LabelStep s s'
  | destroy {s : Store} (inst : Label) :
      LabelStep s (LabelViewSet.perform_destroy s inst)

/-- The per-user name-uniqueness invariant of the label table, together
with primary-key uniqueness: no two distinct rows share (name, owner),
and no two rows share an id. -/
def LabelInv (s : Store) : Prop :=
  (s.labels.map Label.id).Nodup ∧
  s.labels.Pairwise (fun a b => ¬(a.name = b.name ∧ a.owner = b.owner))

instance (s : Store) : Decidable (LabelInv s) := by
  unfold LabelInv; infer_instance

/-- Registration input (UserRegistrationSerializer fields): username and
password required, email optional. -/
structure RegistrationData where
  username : String
  email : Option String := none
  password : String
deriving Repr, DecidableEq

/-- UserRegistrationSerializer.create (serializers.py lines 112-122):
User.objects.create_user with email defaulting to the empty string and
the password stored only through the hash derivation create_user
applies.  The hash function itself belongs to the external auth
subsystem and is a parameter. -/
def UserRegistrationSerializer.create (hash : String → String)
    (d : RegistrationData) (newId : Nat) : User :=
  { id := newId
    username := d.username
    email := d.email.getD ""
    passwordHash := hash d.password
    isStaff := false }

/-- Declared fields of UserRegistrationSerializer.Meta. -/
def UserRegistrationSerializer.fields : List String :=
  ["id", "username", "email", "password"]

/-- Fields marked write_only by Meta.extra_kwargs. -/
def UserRegistrationSerializer.writeOnlyFields : List String :=
  ["password"]

/-- The fields a serialized response carries: declared fields minus the
write-only ones. -/
def UserRegistrationSerializer.outputFields : List String :=
  UserRegistrationSerializer.fields.filter
    (fun f => !UserRegistrationSerializer.writeOnlyFields.contains f)

/-- Serialized representation of a user returned by the registration
endpoint: one (field, value) pair per output field. -/
def UserRegistrationSerializer.serialize (u : User) : List (String × String) :=
  UserRegistrationSerializer.outputFields.map (fun f =>
    (f, if f == "id" then toString u.id
        else if f == "username" then u.username
        else if f == "email" then u.email
        else ""))

end Tasks

namespace Proxy

/-- What the upstream response body parses to: a JSON object with an
optional detail member, some other JSON document (json() succeeds but
.get is not available), or an unparseable body (json() raises). -/
inductive UpstreamBody where
  | jsonObj (detail : Option String)
  | jsonOther
  | unparseable
deriving Repr, DecidableEq

/-- The outcome of the outbound call the proxy makes: a transport
failure (httpx.RequestError, carrying the exception text) or a response
with a status code and a body. -/
inductive Upstream where
  | unreachable (exc : String)
  | response (status : Nat) (body : UpstreamBody)
deriving Repr, DecidableEq

/-- What the proxy endpoint produces: the relayed JSON body, an
HTTPException with status and detail, or an exception escaping every
handler, which the framework renders as a generic 500 without any
upstream information. -/
inductive ProxyResult where
  | success (body : UpstreamBody)
  | httpException (status : Nat) (detail : String)
  | unhandledException
deriving Repr, DecidableEq

/-- httpx response.is_success: a 2xx status. -/
def is2xx (status : Nat) : Bool := 200 ≤ status && status < 300

/-- Error translation shared by the two proxy read endpoints
(fast_api.py lines 36-61 and 76-100).  raise_for_status raises on a
non-2xx status and is caught by the HTTPStatusError handler, which
evaluates exc.response.json().get inside the handler: on a body that is
not a JSON object that evaluation itself raises, and a sibling except
clause of the same try does not catch an exception raised inside a
handler, so it escapes.  A transport failure maps to a 500 embedding the
exception text; any other failure (such as an unparseable body on a 2xx)
is caught by the generic handler. -/
def translate (up : Upstream) : ProxyResult :=
  match up with
  | .unreachable exc =>
      .httpException 500 ("Network error connecting to Django API: " ++ exc)
  | .response status body =>
      if is2xx status then
        match body with
        | .jsonObj d => .success (.jsonObj d)
        | .jsonOther => .success .jsonOther
        | .unparseable =>
            .httpException 500 "An unexpected error occurred: response body is not valid JSON"
      else
        match body with
        | .jsonObj d =>
            .httpException status
              ("Error from Django API: " ++ d.getD "Unknown error")
        | .jsonOther => .unhandledException
        | .unparseable => .unhandledException

/-- get_tasks (fast_api.py lines 23-61) as a function of the upstream
outcome of GET tasks. -/
def get_tasks (up : Upstream) : ProxyResult := translate up

/-- get_labels (fast_api.py lines 64-100) as a function of the upstream
outcome of GET labels. -/
def get_labels (up : Upstream) : ProxyResult := translate up

end Proxy

/-! Concrete sample data used to instantiate the theorems. -/

/-- A non-staff user. -/
def userA : Tasks.User :=
  { id := 1, username := "alice", email := "a@x", passwordHash := "h1", isStaff := false }

/-- A second non-staff user. -/
def userB : Tasks.User :=
  { id := 2, username := "bob", email := "b@x", passwordHash := "h2", isStaff := false }

/-- A staff user. -/
def staffC : Tasks.User :=
  { id := 3, username := "carol", email := "c@x", passwordHash := "h3", isStaff := true }

/-- A label owned by userA. -/
def labelWorkA : Tasks.Label := { id := 10, name := "Work", owner := 1 }

/-- A label owned by userB. -/
def labelHomeB : Tasks.Label := { id := 11, name := "Home", owner := 2 }

/-- A task owned by userA carrying labelWorkA. -/
def task1A : Tasks.Task :=
  { id := 20, title := "write report", description := none
    completion_status := .TODO, owner := 1, labels := [10] }

/-- A small store with two users and one entity each. -/
def store0 : Tasks.Store :=
  { users := [userA, userB, staffC]
    labels := [labelWorkA, labelHomeB]
    tasks := [task1A] }

/-- C1: an entity is in listVisible(u) exactly when u is staff or owns
it; in particular entities owned by A never appear in the listing of a
non-staff B with a different id. -/
theorem C1_listVisible_ownership (s : Tasks.Store) (u : Tasks.User) :
    (∀ t : Tasks.Task, t ∈ Tasks.TaskViewSet.get_queryset s u ↔
      (t ∈ s.tasks ∧ (u.isStaff = true ∨ t.owner = u.id))) ∧
    (∀ l : Tasks.Label, l ∈ Tasks.LabelViewSet.get_queryset s u ↔
      (l ∈ s.labels ∧ (u.isStaff = true ∨ l.owner = u.id))) := by
  constructor
  · intro t
    unfold Tasks.TaskViewSet.get_queryset
    by_cases h : u.isStaff <;> simp [h, List.mem_filter]
  · intro l
    unfold Tasks.LabelViewSet.get_queryset
    by_cases h : u.isStaff <;> simp [h, List.mem_filter]

/-- C8: the object-level permission check allows safe methods for
anyone, and for write methods grants access exactly when the object
owner is the requesting user; in particular a staff non-owner is not
granted write permission by it. -/
theorem C8_write_permission_owner_only (m : Tasks.Method) (u : Tasks.User)
    (owner : Nat) :
    (m ∈ Tasks.SAFE_METHODS →
      Tasks.IsOwnerOrReadOnly.has_object_permission m u owner = true) ∧
    (m ∉ Tasks.SAFE_METHODS →
      (Tasks.IsOwnerOrReadOnly.has_object_permission m u owner = true ↔
        owner = u.id)) ∧
    (u.isStaff = true → owner ≠ u.id → m ∉ Tasks.SAFE_METHODS →
      Tasks.IsOwnerOrReadOnly.has_object_permission m u owner = false) := by
  unfold Tasks.IsOwnerOrReadOnly.has_object_permission
  refine ⟨fun h => ?_, fun h => ?_, fun _ hne h => ?_⟩
  · simp [h]
  · simp [h, beq_iff_eq]
  · simp [h, hne]

/-- C9: a registered user gets the empty email when the field is
omitted, the stored credential is the derived hash of the password, and
the password field is excluded from every serialized response. -/
theorem C9_registration_email_password (hash : String → String)
    (d : Tasks.RegistrationData) (newId : Nat) :
    ((Tasks.UserRegistrationSerializer.create hash d newId).email =
      d.email.getD "") ∧
    (d.email = none →
      (Tasks.UserRegistrationSerializer.create hash d newId).email = "") ∧
    ((Tasks.UserRegistrationSerializer.create hash d newId).passwordHash =
      hash d.password) ∧
    ("password" ∉ (Tasks.UserRegistrationSerializer.serialize
        (Tasks.UserRegistrationSerializer.create hash d newId)).map Prod.fst) ∧
    (Tasks.UserRegistrationSerializer.outputFields = ["id", "username", "email"]) := by
  refine ⟨rfl, fun h => ?_, rfl, ?_, by decide⟩
  · simp [Tasks.UserRegistrationSerializer.create, h]
  · simp only [Tasks.UserRegistrationSerializer.serialize, List.map_map]
    simp only [Function.comp_def]
    decide

/-- C10: at task and label update, a caller who is neither the current
owner nor staff is rejected with PermissionDenied whenever the owner_id
key is present in the payload, regardless of its value. -/
theorem C10_owner_id_presence_guard (s : Tasks.Store) (u : Tasks.User)
    (t : Tasks.Task) (l : Tasks.Label)
    (pT : Tasks.TaskPayload) (pL : Tasks.LabelPayload)
    (hstaff : u.isStaff = false) (hT : t.owner ≠ u.id) (hL : l.owner ≠ u.id)
    (hpT : pT.owner_id.isSome = true) (hpL : pL.owner_id.isSome = true) :
    Tasks.TaskViewSet.perform_update s u t pT =
      .error (.permissionDenied
        "You do not have permission to change the owner of this task.") ∧
    Tasks.LabelViewSet.perform_update s u l pL =
      .error (.permissionDenied
        "You do not have permission to change the owner of this label.") := by
  constructor
  · unfold Tasks.TaskViewSet.perform_update
    simp [hpT, hstaff, hT]
  · unfold Tasks.LabelViewSet.perform_update
    simp [hpL, hstaff, hL]

/-- Counting lemma behind the label validator: when some requested id
matches no label owned by the caller, strictly fewer labels match than
ids were requested, because label ids are unique in the store. -/
theorem valid_labels_length_lt (s : Tasks.Store) (u : Tasks.User)
    (ids : List Nat) (i : Nat)
    (hnd : (s.labels.map Tasks.Label.id).Nodup)
    (hi : i ∈ ids)
    (hmiss : ∀ l ∈ s.labels, ¬(l.id = i ∧ l.owner = u.id)) :
    (Tasks.valid_labels s u ids).length < ids.length := by
  classical
  set V := Tasks.valid_labels s u ids with hV
  have hsub : List.Sublist (V.map Tasks.Label.id) (s.labels.map Tasks.Label.id) :=
    (List.filter_sublist _).map _
  have hVnd : (V.map Tasks.Label.id).Nodup := List.Nodup.sublist hsub hnd
  have hmem : ∀ j ∈ V.map Tasks.Label.id, j ∈ ids ∧ j ≠ i := by
    intro j hj
    obtain ⟨l, hl, rfl⟩ := List.mem_map.mp hj
    obtain ⟨hls, hcond⟩ := List.mem_filter.mp hl
    have h1 : l.id ∈ ids := by
      have := (Bool.and_eq_true _ _).mp hcond |>.1
      simpa using this
    have h2 : l.owner = u.id := by
      have := (Bool.and_eq_true _ _).mp hcond |>.2
      simpa using this
    exact ⟨h1, fun hji => hmiss l hls ⟨hji, h2⟩⟩
  have hcard1 : (V.map Tasks.Label.id).toFinset.card = V.length := by
    rw [List.toFinset_card_of_nodup hVnd, List.length_map]
  have hsubF : (V.map Tasks.Label.id).toFinset ⊆ ids.toFinset.erase i := by
    intro j hj
    rw [List.mem_toFinset] at hj
    obtain ⟨h1, h2⟩ := hmem j hj
    exact Finset.mem_erase.mpr ⟨h2, List.mem_toFinset.mpr h1⟩
  have hle : V.length ≤ (ids.toFinset.erase i).card := by
    rw [← hcard1]
    exact Finset.card_le_card hsubF
  have hlt : (ids.toFinset.erase i).card < ids.toFinset.card :=
    Finset.card_erase_lt_of_mem (List.mem_toFinset.mpr hi)
  calc (Tasks.valid_labels s u ids).length
      ≤ (ids.toFinset.erase i).card := hle
    _ < ids.toFinset.card := hlt
    _ ≤ ids.length := List.toFinset_card_le ids

/-- C2: task creation fails with the field-scoped ValidationError
exactly when the matched-label count differs from the requested-id
count; in particular a requested id whose label belongs to another user
makes creation fail, so no task is persisted. -/
theorem C2_label_validation_abort (s : Tasks.Store) (u : Tasks.User)
    (p : Tasks.TaskPayload) (newId : Nat)
    (hwf : (s.labels.map Tasks.Label.id).Nodup) :
    (Tasks.TaskViewSet.perform_create s u p newId =
        .error (.validationError "label_ids"
          "One or more labels not found or do not belong to the authenticated user.")
      ↔ (Tasks.valid_labels s u (Tasks.coerceLabelIds p.label_ids)).length ≠
          (Tasks.coerceLabelIds p.label_ids).length) ∧
    (∀ (ids : List Nat) (i : Nat) (l : Tasks.Label),
      p.label_ids = some (.list ids) → i ∈ ids → l ∈ s.labels →
      l.id = i → l.owner ≠ u.id →
      Tasks.TaskViewSet.perform_create s u p newId =
        .error (.validationError "label_ids"
          "One or more labels not found or do not belong to the authenticated user.")) := by
  have hiff : Tasks.TaskViewSet.perform_create s u p newId =
      .error (.validationError "label_ids"
        "One or more labels not found or do not belong to the authenticated user.")
      ↔ (Tasks.valid_labels s u (Tasks.coerceLabelIds p.label_ids)).length ≠
          (Tasks.coerceLabelIds p.label_ids).length := by
    unfold Tasks.TaskViewSet.perform_create
    by_cases hc : (Tasks.valid_labels s u (Tasks.coerceLabelIds p.label_ids)).length ≠
        (Tasks.coerceLabelIds p.label_ids).length
    · simp [hc]
    · simp [hc]
  refine ⟨hiff, fun ids i l hp hi hls hid howner => ?_⟩
  have hmiss : ∀ x ∈ s.labels, ¬(x.id = i ∧ x.owner = u.id) := by
    intro x hx ⟨hxi, hxo⟩
    have : x = l := List.inj_on_of_nodup_map hwf hx hls (by rw [hxi, hid])
    exact howner (this ▸ hxo)
  have hlt := valid_labels_length_lt s u ids i hwf hi hmiss
  refine hiff.mpr ?_
  rw [hp]
  simpa [Tasks.coerceLabelIds] using Nat.ne_of_lt hlt

/-- The creation payload of userB naming the label of userA. -/
def foreignPayload : Tasks.TaskPayload :=
  { title := some "steal", label_ids := some (.list [10]) }

/-- Witness for C2: creation by userB with label 10 (owned by userA)
fails with the field-scoped ValidationError, so no task is persisted. -/
theorem C2_label_validation_abort_witness :
    Tasks.TaskViewSet.perform_create store0 userB foreignPayload 32 =
      .error (.validationError "label_ids"
        "One or more labels not found or do not belong to the authenticated user.") :=
  (C2_label_validation_abort store0 userB foreignPayload 32 (by decide)).2
    [10] 10 labelWorkA rfl (by decide) (by decide) rfl (by decide)

/-- C3: at task update by the owner, an absent label_ids field leaves
the label association untouched while the other supplied fields still
patch the task; a present list is validated and replaces the
association wholesale, and the empty list clears it. -/
theorem C3_update_label_ids_frame (s : Tasks.Store) (u : Tasks.User)
    (t : Tasks.Task) (p : Tasks.TaskPayload) (hown : t.owner = u.id) :
    (p.label_ids = none →
      Tasks.TaskViewSet.perform_update s u t p =
        .ok (s.saveTask (Tasks.applyTaskPatch t p)) ∧
      (Tasks.applyTaskPatch t p).labels = t.labels ∧
      (Tasks.applyTaskPatch t p).title = p.title.getD t.title ∧
      (Tasks.applyTaskPatch t p).completion_status =
        p.completion_status.getD t.completion_status) ∧
    (∀ ids, p.label_ids = some (.list ids) →
      (Tasks.valid_labels s u ids).length = ids.length →
      Tasks.TaskViewSet.perform_update s u t p =
        .ok (s.saveTask { Tasks.applyTaskPatch t p with
          labels := (Tasks.valid_labels s u ids).map Tasks.Label.id })) ∧
    (p.label_ids = some (.list []) →
      Tasks.TaskViewSet.perform_update s u t p =
        .ok (s.saveTask { Tasks.applyTaskPatch t p with labels := [] })) := by
  have hguard : (p.owner_id.isSome && !(t.owner == u.id) && !u.isStaff) = false := by
    simp [hown]
  refine ⟨fun h => ?_, fun ids h hv => ?_, fun h => ?_⟩
  · unfold Tasks.TaskViewSet.perform_update
    rw [hguard]
    simp [h, Tasks.applyTaskPatch]
  · unfold Tasks.TaskViewSet.perform_update
    rw [hguard]
    simp [h, hv]
  · unfold Tasks.TaskViewSet.perform_update
    rw [hguard]
    simp [h, Tasks.valid_labels]

/-- Witness for C3: the owner updates the title of their task without
sending label_ids, and the saved task keeps the old label association
while the title changes. -/
theorem C3_update_label_ids_frame_witness :
    Tasks.TaskViewSet.perform_update store0 userA task1A { title := some "x" } =
      .ok (store0.saveTask (Tasks.applyTaskPatch task1A { title := some "x" })) ∧
    (Tasks.applyTaskPatch task1A { title := some "x" }).labels = task1A.labels ∧
    (Tasks.applyTaskPatch task1A { title := some "x" }).title = "x" :=
  have h := (C3_update_label_ids_frame store0 userA task1A
    { title := some "x" } rfl).1 rfl
  ⟨h.1, h.2.1, h.2.2.1⟩

/-- C4: a created task always belongs to the requesting user with
exactly the validated label set, and the write-only owner_id field of
the payload has no effect on creation. -/
theorem C4_create_owner_forced (s : Tasks.Store) (u : Tasks.User)
    (p : Tasks.TaskPayload) (newId : Nat) (s' : Tasks.Store)
    (h : Tasks.TaskViewSet.perform_create s u p newId = .ok s') :
    (∃ t : Tasks.Task, s'.tasks = s.tasks ++ [t] ∧ t.owner = u.id ∧
      t.id = newId ∧
      t.labels = (Tasks.valid_labels s u
        (Tasks.coerceLabelIds p.label_ids)).map Tasks.Label.id) ∧
    (∀ v : Nat, Tasks.TaskViewSet.perform_create s u
        { p with owner_id := some v } newId =
      Tasks.TaskViewSet.perform_create s u
        { p with owner_id := none } newId) := by
  constructor
  · simp only [Tasks.TaskViewSet.perform_create] at h
    split at h
    · exact absurd h (by simp)
    · obtain rfl : _ = s' := Except.ok.inj h
      exact ⟨_, rfl, rfl, rfl, rfl⟩
  · intro v
    unfold Tasks.TaskViewSet.perform_create
    rfl

/-- The task the sample creation request persists. -/
def createdTask1 : Tasks.Task :=
  { id := 30, title := "new", description := none
    completion_status := .TODO, owner := 1, labels := [10] }

/-- The sample creation payload: userA creates a task with label 10 and
tries to hand it to userB through owner_id. -/
def createPayload1 : Tasks.TaskPayload :=
  { title := some "new", owner_id := some 2, label_ids := some (.list [10]) }

/-- The store after the sample creation. -/
def store0c : Tasks.Store := { store0 with tasks := store0.tasks ++ [createdTask1] }

/-- Witness for C4: userA creates a task supplying owner_id = userB;
the persisted task is still owned by userA and carries label 10. -/
theorem C4_create_owner_forced_witness :
    ∃ t : Tasks.Task, store0c.tasks = store0.tasks ++ [t] ∧ t.owner = userA.id ∧
      t.id = 30 ∧
      t.labels = (Tasks.valid_labels store0 userA
        (Tasks.coerceLabelIds createPayload1.label_ids)).map Tasks.Label.id :=
  (C4_create_owner_forced store0 userA createPayload1 30 store0c (by decide)).1

/-- C5 counterexample: at task update a non-list label_ids raises a
field-scoped ValidationError instead of being coerced to the empty
sequence, so the treated-as-empty behaviour claimed for both creation
and update fails at update. -/
theorem C5_nonlist_counterexample :
    Tasks.TaskViewSet.perform_update store0 userA task1A
      { label_ids := some .nonList } =
      .error (.validationError "label_ids"
        "The format for label_ids must be a list.") ∧
    Tasks.TaskViewSet.perform_update store0 userA task1A
      { label_ids := some .nonList } ≠
    Tasks.TaskViewSet.perform_update store0 userA task1A
      { label_ids := some (.list []) } := by
  decide

/-- C5 amended: at task creation a non-list label_ids input is treated
as the empty list, while at task update (by the owner) it is rejected
with a field-scoped ValidationError. -/
theorem C5_nonlist_handling (s : Tasks.Store) (u : Tasks.User)
    (t : Tasks.Task) (p : Tasks.TaskPayload) (newId : Nat)
    (hown : t.owner = u.id) (hp : p.label_ids = some .nonList) :
    Tasks.TaskViewSet.perform_create s u p newId =
      Tasks.TaskViewSet.perform_create s u
        { p with label_ids := some (.list []) } newId ∧
    Tasks.TaskViewSet.perform_update s u t p =
      .error (.validationError "label_ids"
        "The format for label_ids must be a list.") := by
  constructor
  · unfold Tasks.TaskViewSet.perform_create
    simp [hp, Tasks.coerceLabelIds]
  · unfold Tasks.TaskViewSet.perform_update
    have hguard : (p.owner_id.isSome && !(t.owner == u.id) && !u.isStaff) = false := by
      simp [hown]
    rw [hguard]
    simp [hp]

/-- Witness for C5 amended: userA creates a task with a non-list
label_ids and gets the same result as with an empty list, and updates
their task with a non-list label_ids and gets the ValidationError. -/
theorem C5_nonlist_handling_witness :
    Tasks.TaskViewSet.perform_create store0 userA
      { label_ids := some .nonList } 31 =
      Tasks.TaskViewSet.perform_create store0 userA
        { label_ids := some (.list []) } 31 ∧
    Tasks.TaskViewSet.perform_update store0 userA task1A
      { label_ids := some .nonList } =
      .error (.validationError "label_ids"
        "The format for label_ids must be a list.") :=
  C5_nonlist_handling store0 userA task1A { label_ids := some .nonList } 31
    rfl rfl

/-- The constrained insert keeps the label invariant when the new id is
fresh. -/
theorem insertLabel_inv (s : Tasks.Store) (l : Tasks.Label) (s' : Tasks.Store)
    (hinv : Tasks.LabelInv s)
    (hfresh : ∀ x ∈ s.labels, x.id ≠ l.id)
    (h : s.insertLabel l = .ok s') : Tasks.LabelInv s' := by
  unfold Tasks.Store.insertLabel at h
  split at h
  · exact absurd h (by simp)
  · rename_i hguard
    obtain rfl : _ = s' := Except.ok.inj h
    have hnc : ∀ x ∈ s.labels, ¬(x.name = l.name ∧ x.owner = l.owner) := by
      intro x hx hxc
      exact hguard (by simp [List.any_eq_true]; exact ⟨x, hx, hxc.1, hxc.2⟩)
    constructor
    · rw [List.map_append]
      refine List.Nodup.append hinv.1 (by simp) ?_
      intro a ha hb
      simp only [List.map_cons, List.map_nil, List.mem_singleton] at hb
      obtain ⟨x, hx, rfl⟩ := List.mem_map.mp ha
      exact hfresh x hx hb
    · rw [List.pairwise_append]
      refine ⟨hinv.2, by simp, fun a ha b hb => ?_⟩
      simp only [List.mem_singleton] at hb
      subst hb
      exact hnc a ha

/-- The constrained row update keeps the label invariant. -/
theorem saveLabel_inv (s : Tasks.Store) (l : Tasks.Label) (s' : Tasks.Store)
    (hinv : Tasks.LabelInv s)
    (h : s.saveLabel l = .ok s') : Tasks.LabelInv s' := by
  unfold Tasks.Store.saveLabel at h
  split at h
  · exact absurd h (by simp)
  · rename_i hguard
    obtain rfl : _ = s' := Except.ok.inj h
    have hg : ∀ x ∈ s.labels, ¬(x.id ≠ l.id ∧ x.name = l.name ∧ x.owner = l.owner) := by
      intro x hx hxc
      refine hguard ?_
      simp only [List.any_eq_true]
      refine ⟨x, hx, ?_⟩
      simp [hxc.1, hxc.2.1, hxc.2.2]
    have hid_inj : ∀ x ∈ s.labels, ∀ y ∈ s.labels, x.id = y.id → x = y :=
      fun x hx y hy hxy => List.inj_on_of_nodup_map hinv.1 hx hy hxy
    have hids : ((s.labels.map (fun x => if x.id == l.id then l else x)).map
        Tasks.Label.id) = s.labels.map Tasks.Label.id := by
      rw [List.map_map]
      apply List.map_congr_left
      intro x _
      by_cases hxe : x.id = l.id
      · simp [Function.comp_def, hxe]
      · simp [Function.comp_def, hxe]
    constructor
    · rw [hids]
      exact hinv.1
    · rw [List.pairwise_map]
      refine List.Pairwise.imp_of_mem ?_ hinv.2
      intro a b ha hb hab
      by_cases ha' : a.id = l.id <;> by_cases hb' : b.id = l.id
      · exact absurd (hid_inj a ha b hb (ha'.trans hb'.symm)) (by
          rintro rfl
          exact hab ⟨rfl, rfl⟩)
      · simp only [ha', hb', beq_self_eq_true, if_pos, beq_iff_eq, if_neg]
        intro hcol
        exact hg b hb ⟨hb', hcol.1.symm, hcol.2.symm⟩
      · simp only [ha', hb', beq_iff_eq, if_neg, if_pos, beq_self_eq_true]
        intro hcol
        exact hg a ha ⟨ha', hcol.1, hcol.2⟩
      · simpa [ha', hb'] using hab

/-- Deleting a label row keeps the label invariant. -/
theorem destroy_inv (s : Tasks.Store) (inst : Tasks.Label)
    (hinv : Tasks.LabelInv s) :
    Tasks.LabelInv (Tasks.LabelViewSet.perform_destroy s inst) := by
  unfold Tasks.LabelViewSet.perform_destroy
  exact ⟨List.Nodup.sublist ((List.filter_sublist _).map _) hinv.1,
    List.Pairwise.sublist (List.filter_sublist _) hinv.2⟩

/-- A successful label update always went through the constrained row
update of the patched instance. -/
theorem perform_update_ok_saveLabel (s : Tasks.Store) (u : Tasks.User)
    (inst : Tasks.Label) (p : Tasks.LabelPayload) (s' : Tasks.Store)
    (h : Tasks.LabelViewSet.perform_update s u inst p = .ok s') :
    s.saveLabel (Tasks.applyLabelPatch inst p) = .ok s' := by
  unfold Tasks.LabelViewSet.perform_update at h
  split at h
  · exact absurd h (by simp)
  · split at h
    · split at h
      · split at h
        · exact absurd h (by simp)
        · exact h
      · exact h
    · exact h

/-- C7: the per-user label-name uniqueness invariant holds in every
store reachable through the label endpoints; creation of a duplicate
name for the same user is rejected with the validation error, while a
user who does not yet hold the name creates the label successfully, so
different users may hold identical names. -/
theorem C7_label_name_uniqueness :
    (∀ s s' : Tasks.Store, Tasks.LabelInv s → Tasks.LabelStep s s' →
      Tasks.LabelInv s') ∧
    (∀ (s : Tasks.Store) (u : Tasks.User) (p : Tasks.LabelPayload)
        (newId : Nat) (n : String), p.name = some n →
      (∃ l ∈ s.labels, l.name = n ∧ l.owner = u.id) →
      Tasks.LabelViewSet.perform_create s u p newId =
        .error (.validationError "name"
          "A label with this name already exists for this user.")) ∧
    (∀ (s : Tasks.Store) (u : Tasks.User) (p : Tasks.LabelPayload)
        (newId : Nat) (n : String), p.name = some n →
      (∀ l ∈ s.labels, ¬(l.name = n ∧ l.owner = u.id)) →
      Tasks.LabelViewSet.perform_create s u p newId =
        .ok { s with labels :=
          s.labels ++ [{ id := newId, name := n, owner := u.id }] }) := by
  refine ⟨fun s s' hinv hstep => ?_, fun s u p newId n hp hdup => ?_,
    fun s u p newId n hp hfree => ?_⟩
  · cases hstep with
    | create u p newId hfresh h =>
        simp only [Tasks.LabelViewSet.perform_create] at h
        split at h
        · exact absurd h (by simp)
        · exact insertLabel_inv s _ s' hinv (fun x hx => hfresh x hx) h
    | update u inst p hinst h =>
        exact saveLabel_inv s _ s' hinv (perform_update_ok_saveLabel s u inst p s' h)
    | destroy inst => exact destroy_inv s inst hinv
  · unfold Tasks.LabelViewSet.perform_create
    rw [hp]
    have hex : ∃ x ∈ s.labels, x.name = n ∧ x.owner = u.id := hdup
    simp [hex]
  · unfold Tasks.LabelViewSet.perform_create Tasks.Store.insertLabel
    rw [hp]
    have hex : ¬∃ x ∈ s.labels, x.name = n ∧ x.owner = u.id := by
      rintro ⟨x, hx, hxc⟩
      exact hfree x hx hxc
    simp [hex]

/-- C6 counterexample: with the upstream returning 404 and an
unparseable body, the proxy does not answer 404 with a generic
fallback message; the decode failure inside the error handler escapes
and the framework yields its own generic 500. -/
theorem C6_unparseable_counterexample :
    Proxy.get_tasks (.response 404 .unparseable) =
      Proxy.ProxyResult.unhandledException ∧
    Proxy.get_tasks (.response 404 .unparseable) ≠
      Proxy.ProxyResult.httpException 404 "Error from Django API: Unknown error" := by
  decide

/-- C6 amended: a transport failure maps to a 500 embedding the error
text; a non-2xx upstream response whose body is a JSON object maps to
the upstream status with the detail field or the Unknown error
fallback; a non-2xx response whose body is unparseable or not a JSON
object escapes the handler, so the proxy does not relay the upstream
status for it.  Both read endpoints translate identically. -/
theorem C6_proxy_error_translation (msg : String) (status : Nat)
    (d : Option String) :
    (Proxy.get_tasks (.unreachable msg) =
        .httpException 500 ("Network error connecting to Django API: " ++ msg) ∧
      Proxy.get_labels (.unreachable msg) =
        .httpException 500 ("Network error connecting to Django API: " ++ msg)) ∧
    (Proxy.is2xx status = false →
      Proxy.get_tasks (.response status (.jsonObj d)) =
        .httpException status ("Error from Django API: " ++ d.getD "Unknown error") ∧
      Proxy.get_labels (.response status (.jsonObj d)) =
        .httpException status ("Error from Django API: " ++ d.getD "Unknown error")) ∧
    (Proxy.is2xx status = false →
      Proxy.get_tasks (.response status .unparseable) = .unhandledException ∧
      Proxy.get_tasks (.response status .jsonOther) = .unhandledException ∧
      Proxy.get_labels (.response status .unparseable) = .unhandledException ∧
      Proxy.get_labels (.response status .jsonOther) = .unhandledException) := by
  refine ⟨⟨rfl, rfl⟩, fun h => ?_, fun h => ?_⟩
  · constructor <;>
      simp [Proxy.get_tasks, Proxy.get_labels, Proxy.translate, h]
  · refine ⟨?_, ?_, ?_, ?_⟩ <;>
      simp [Proxy.get_tasks, Proxy.get_labels, Proxy.translate, h]

/-- Witness for C10: userB (not owner, not staff) sends an update for
task and label of userA whose owner_id value equals the current owner,
so no actual ownership change is requested, and is still rejected. -/
theorem C10_owner_id_presence_guard_witness :
    Tasks.TaskViewSet.perform_update store0 userB task1A
      { owner_id := some task1A.owner } =
      .error (.permissionDenied
        "You do not have permission to change the owner of this task.") ∧
    Tasks.LabelViewSet.perform_update store0 userB labelWorkA
      { owner_id := some labelWorkA.owner } =
      .error (.permissionDenied
        "You do not have permission to change the owner of this label.") :=
  C10_owner_id_presence_guard store0 userB task1A labelWorkA
    { owner_id := some task1A.owner } { owner_id := some labelWorkA.owner }
    (by decide) (by decide) (by decide) (by decide) (by decide)
